import Mathlib

/-!
Shallow embedding of the game-state engine of `src/src/store/gameStore.ts`
(the "snake-neon" repository).  The Zustand store is modelled as a record
`GameStore`; each store action becomes a pure function `GameStore → GameStore`
(randomness is passed in explicitly as an oracle `Rng`, and the fresh
leaderboard id — `Date.now().toString()` in the source — as a `String`
argument).  Coordinates are `Int` because the tentative new head can leave
the grid before the wall check; scores, levels and lives stay `Nat` as the
engine only ever adds to them from zero.
-/

namespace SnakeNeon

/-- `type GameState = 'menu' | 'playing' | 'paused' | 'gameOver'` -/
inductive GameState
  | menu | playing | paused | gameOver
deriving DecidableEq

/-- `type GameMode = 'classic' | 'survival' | 'multiplayer'` -/
inductive GameMode
  | classic | survival | multiplayer
deriving DecidableEq

/-- `type Direction = 'up' | 'down' | 'left' | 'right'` -/
inductive Direction
  | up | down | left | right
deriving DecidableEq

/-- `type PowerUpType = 'speed' | 'shrink' | 'magnet'` -/
inductive PowerUpType
  | speed | shrink | magnet
deriving DecidableEq

/-- `interface Position { x, z }` — a grid cell. -/
structure Position where
  x : Int
  z : Int
deriving DecidableEq

/-- Variant tag of a food item: `'normal' | 'power'`. -/
inductive FoodType
  | normal | power
deriving DecidableEq

/-- `interface Food extends Position { type }` -/
structure Food where
  x : Int
  z : Int
  type : FoodType
deriving DecidableEq

/-- `interface PowerUp extends Position { type }` -/
structure PowerUp where
  x : Int
  z : Int
  type : PowerUpType
deriving DecidableEq

/-- `interface ActivePowerUp { type, timeLeft }` -/
structure ActivePowerUp where
  type : PowerUpType
  timeLeft : Int
deriving DecidableEq

/-- `interface LeaderboardEntry { id, score, playerName, gameMode, date }` -/
structure LeaderboardEntry where
  id : String
  score : Nat
  playerName : String
  gameMode : GameMode
  date : Int
deriving DecidableEq

/-- The `theme` field of `Settings`: `'dark' | 'light'`. -/
inductive Theme
  | dark | light
deriving DecidableEq

/-- The `keyMapping` field of `Settings`. -/
structure KeyMapping where
  up : String
  down : String
  left : String
  right : String
deriving DecidableEq

/-- The `accessibility` field of `Settings`. -/
structure Accessibility where
  reducedMotion : Bool
  highContrast : Bool
deriving DecidableEq

/-- `interface Settings`. -/
structure Settings where
  volume : Rat
  gameSpeed : Nat
  theme : Theme
  keyMapping : KeyMapping
  accessibility : Accessibility
deriving DecidableEq

/-- `cameraMode: 'follow' | 'overview' | 'cinematic'` -/
inductive CameraMode
  | follow | overview | cinematic
deriving DecidableEq

/-- The state portion of the Zustand `GameStore` (the actions are modelled as
functions below). -/
structure GameStore where
  gameState : GameState
  gameMode : GameMode
  snake : List Position
  food : List Food
  powerUps : List PowerUp
  activePowerUps : List ActivePowerUp
  direction : Direction
  score : Nat
  level : Nat
  lives : Nat
  highScore : Nat
  showSettings : Bool
  showLeaderboard : Bool
  leaderboard : List LeaderboardEntry
  settings : Settings
  snakeSpeed : Nat
  cameraMode : CameraMode
  effectsEnabled : Bool
deriving DecidableEq

/-- `const GRID_SIZE = 20;` -/
def GRID_SIZE : Nat := 20

/-- `const defaultSettings: Settings = ...` -/
def defaultSettings : Settings :=
  { volume := 7/10
    gameSpeed := 5
    theme := .dark
    keyMapping := { up := "arrowup", down := "arrowdown",
                    left := "arrowleft", right := "arrowright" }
    accessibility := { reducedMotion := false, highContrast := false } }

/-- Oracle for the random number source.  `sample i` models the `i`-th value of
`Math.floor(Math.random() * GRID_SIZE)` drawn during one action (the `% GRID_SIZE`
in `genPos` reflects that this value always lies in `[0, GRID_SIZE)`);
`isPower` models the outcome of the `Math.random() < 0.15` draw. -/
structure Rng where
  sample : Nat → Nat
  isPower : Bool

/-- The candidate position produced by attempt `i` of the `do`/`while` loop in
`generateFood`: `x` and `z` are two successive `Math.floor(Math.random() * GRID_SIZE)`
draws. -/
def genPos (rng : Rng) (i : Nat) : Position :=
  ⟨(rng.sample (2 * i) % GRID_SIZE : Nat), (rng.sample (2 * i + 1) % GRID_SIZE : Nat)⟩

/-- `snake.some(segment => segment.x === position.x && segment.z === position.z)` —
also used for the self-collision check in `updateGame`. -/
def overlaps (snake : List Position) (p : Position) : Bool :=
  snake.any fun segment => segment.x == p.x && segment.z == p.z

/-- The `do { position = ...; attempts++ } while (snake.some(...) && attempts < 100)`
loop of `generateFood`, starting at attempt index `i` (so `attempts = i + 1` after
the body).  `fuel` bounds the recursion; called with `fuel = 100` the base case is
unreachable because the loop makes at most 100 attempts (the guard `attempts < 100`
is false once `i + 1 = 100`), and it returns the current candidate just as the real
loop would. -/
def genAttempts (rng : Rng) (snake : List Position) : Nat → Nat → Position
  | 0, i => genPos rng i
  | fuel + 1, i =>
    let position := genPos rng i
    if overlaps snake position && decide (i + 1 < 100) then
      genAttempts rng snake fuel (i + 1)
    else
      position

/-- `const generateFood = (snake: Position[]): Food => ...` -/
def generateFood (rng : Rng) (snake : List Position) : Food :=
  let position := genAttempts rng snake 100 0
  { x := position.x, z := position.z
    type := if rng.isPower then .power else .normal }

/-- The map `opposites` inside `moveSnake`. -/
def opposites : Direction → Direction
  | .up => .down
  | .down => .up
  | .left => .right
  | .right => .left

/-- The `switch (direction)` in `updateGame` computing the tentative new head. -/
def nextHead (d : Direction) (head : Position) : Position :=
  match d with
  | .up => ⟨head.x, head.z - 1⟩
  | .down => ⟨head.x, head.z + 1⟩
  | .left => ⟨head.x - 1, head.z⟩
  | .right => ⟨head.x + 1, head.z⟩

/-- The wall-collision test of `updateGame`:
`newHead.x < 0 || newHead.x >= GRID_SIZE || newHead.z < 0 || newHead.z >= GRID_SIZE`. -/
def outOfBounds (p : Position) : Prop :=
  p.x < 0 ∨ (GRID_SIZE : Int) ≤ p.x ∨ p.z < 0 ∨ (GRID_SIZE : Int) ≤ p.z

instance (p : Position) : Decidable (outOfBounds p) := by
  unfold outOfBounds; infer_instance

/-- `food.findIndex(f => f.x === newHead.x && f.z === newHead.z)` together with the
subsequent lookup `food[eatenFoodIndex]`: returns the index and the entry of the
first food item at `p`, or `none` when `findIndex` yields `-1`. -/
def findFood (p : Position) : List Food → Option (Nat × Food)
  | [] => none
  | f :: rest =>
    if f.x = p.x ∧ f.z = p.z then some (0, f)
    else (findFood p rest).map fun ig => (ig.1 + 1, ig.2)

/-- `startGame: (mode) => ...` -/
def startGame (mode : GameMode) (rng : Rng) (s : GameStore) : GameStore :=
  let initialSnake : List Position := [⟨10, 10⟩]
  { s with
    gameState := .playing
    gameMode := mode
    snake := initialSnake
    food := [generateFood rng initialSnake]
    powerUps := []
    activePowerUps := []
    direction := .right
    score := 0
    level := 1
    lives := if mode = .survival then 3 else 1
    showSettings := false
    showLeaderboard := false }

/-- `pauseGame: () => ...` -/
def pauseGame (s : GameStore) : GameStore :=
  if s.gameState = .playing then { s with gameState := .paused }
  else if s.gameState = .paused then { s with gameState := .playing }
  else s

/-- `resetGame: () => ...` -/
def resetGame (rng : Rng) (s : GameStore) : GameStore :=
  let initialSnake : List Position := [⟨10, 10⟩]
  { s with
    gameState := .menu
    snake := initialSnake
    food := [generateFood rng initialSnake]
    powerUps := []
    activePowerUps := []
    direction := .right
    score := 0
    level := 1
    lives := 3 }

/-- `moveSnake: (direction) => ...` -/
def moveSnake (direction : Direction) (s : GameStore) : GameStore :=
  if s.gameState ≠ .playing then s
  else if 1 < s.snake.length ∧ opposites direction = s.direction then s
  else { s with direction := direction }

/-- `updateGame: () => ...` (one tick).  The `[]` branch of the `match` is
unreachable: the snake is non-empty in every reachable state (the source would
throw on `snake[0].x` there). -/
def updateGame (rng : Rng) (s : GameStore) : GameStore :=
  if s.gameState ≠ .playing then s
  else
    match s.snake with
    | [] => s
    | head :: _ =>
      let newHead := nextHead s.direction head
      if outOfBounds newHead then
        { s with gameState := .gameOver, highScore := max s.highScore s.score }
      else if overlaps s.snake newHead then
        { s with gameState := .gameOver, highScore := max s.highScore s.score }
      else
        let newSnake := newHead :: s.snake
        match findFood newHead s.food with
        | some (i, eatenFood) =>
          let newFood := s.food.set i (generateFood rng newSnake)
          let pointsGained := if eatenFood.type = .power then 20 else 10
          let newScore := s.score + pointsGained
          let newLevel := newScore / 100 + 1
          { s with snake := newSnake, food := newFood,
                   score := newScore, level := newLevel }
        | none =>
          { s with snake := newSnake.dropLast }

/-- `Partial<Settings>`: each top-level key optionally present. -/
structure PartialSettings where
  volume : Option Rat := none
  gameSpeed : Option Nat := none
  theme : Option Theme := none
  keyMapping : Option KeyMapping := none
  accessibility : Option Accessibility := none

/-- `{ ...settings, ...newSettings }` — present keys override. -/
def mergeSettings (st : Settings) (ns : PartialSettings) : Settings :=
  { volume := ns.volume.getD st.volume
    gameSpeed := ns.gameSpeed.getD st.gameSpeed
    theme := ns.theme.getD st.theme
    keyMapping := ns.keyMapping.getD st.keyMapping
    accessibility := ns.accessibility.getD st.accessibility }

/-- `updateSettings: (newSettings) => ...` -/
def updateSettings (ns : PartialSettings) (s : GameStore) : GameStore :=
  { s with settings := mergeSettings s.settings ns }

/-- `toggleSettings: () => ...` -/
def toggleSettings (s : GameStore) : GameStore :=
  { s with showSettings := !s.showSettings }

/-- `toggleLeaderboard: () => ...` -/
def toggleLeaderboard (s : GameStore) : GameStore :=
  { s with showLeaderboard := !s.showLeaderboard }

/-- `Omit<LeaderboardEntry, 'id'>` — the argument of `addToLeaderboard`. -/
structure EntryInput where
  score : Nat
  playerName : String
  gameMode : GameMode
  date : Int

/-- The sort relation induced by the comparator `(a, b) => b.score - a.score`
(descending by score). -/
def scoreGE (a b : LeaderboardEntry) : Prop := b.score ≤ a.score

instance : DecidableRel scoreGE := fun a b => Nat.decLe b.score a.score

instance : IsTotal LeaderboardEntry scoreGE :=
  ⟨fun a b => Nat.le_total b.score a.score⟩

instance : IsTrans LeaderboardEntry scoreGE :=
  ⟨fun _ _ _ h1 h2 => Nat.le_trans h2 h1⟩

/-- `addToLeaderboard: (entry) => ...`; `newId` stands for `Date.now().toString()`,
and the stable `Array.prototype.sort` with the descending comparator is modelled
by the stable `List.insertionSort scoreGE`. -/
def addToLeaderboard (entry : EntryInput) (newId : String) (s : GameStore) : GameStore :=
  let newEntry : LeaderboardEntry :=
    { id := newId, score := entry.score, playerName := entry.playerName,
      gameMode := entry.gameMode, date := entry.date }
  let updatedLeaderboard :=
    (List.insertionSort scoreGE (s.leaderboard ++ [newEntry])).take 10
  { s with leaderboard := updatedLeaderboard
           highScore := max s.highScore entry.score }

/-- `setSnakeSpeed: (speed) => ...` -/
def setSnakeSpeed (speed : Nat) (s : GameStore) : GameStore :=
  { s with snakeSpeed := speed }

/-- `setCameraMode: (mode) => ...` -/
def setCameraMode (mode : CameraMode) (s : GameStore) : GameStore :=
  { s with cameraMode := mode }

/-- `toggleEffects: () => ...` -/
def toggleEffects (s : GameStore) : GameStore :=
  { s with effectsEnabled := !s.effectsEnabled }

/-- One store action, with its oracle data where the source consumes randomness
or the current time. -/
inductive Action
  | startGame (mode : GameMode) (rng : Rng)
  | pauseGame
  | resetGame (rng : Rng)
  | moveSnake (direction : Direction)
  | updateGame (rng : Rng)
  | updateSettings (ns : PartialSettings)
  | toggleSettings
  | toggleLeaderboard
  | addToLeaderboard (entry : EntryInput) (newId : String)
  | setSnakeSpeed (speed : Nat)
  | setCameraMode (mode : CameraMode)
  | toggleEffects

/-- Dispatch of one action on the store. -/
def step : Action → GameStore → GameStore
  | .startGame mode rng => startGame mode rng
  | .pauseGame => pauseGame
  | .resetGame rng => resetGame rng
  | .moveSnake d => moveSnake d
  | .updateGame rng => updateGame rng
  | .updateSettings ns => updateSettings ns
  | .toggleSettings => toggleSettings
  | .toggleLeaderboard => toggleLeaderboard
  | .addToLeaderboard e newId => addToLeaderboard e newId
  | .setSnakeSpeed v => setSnakeSpeed v
  | .setCameraMode m => setCameraMode m
  | .toggleEffects => toggleEffects

/-- The initial store state of `create<GameStore>(...)`.  `hs` is the persisted
high score (`parseInt(localStorage.getItem('neon-snake-highscore') || '0')`),
`lb` the persisted leaderboard and `st` the merge of `defaultSettings` with the
persisted settings blob. -/
def initState (hs : Nat) (lb : List LeaderboardEntry) (st : Settings) : GameStore :=
  { gameState := .menu
    gameMode := .classic
    snake := [⟨10, 10⟩]
    food := [⟨15, 15, .normal⟩]
    powerUps := []
    activePowerUps := []
    direction := .right
    score := 0
    level := 1
    lives := 3
    highScore := hs
    showSettings := false
    showLeaderboard := false
    leaderboard := lb
    settings := st
    snakeSpeed := 5
    cameraMode := .cinematic
    effectsEnabled := true }

/-- States reachable from some initial state by a sequence of store actions. -/
inductive Reachable : GameStore → Prop
  | init (hs : Nat) (lb : List LeaderboardEntry) (st : Settings) :
      Reachable (initState hs lb st)
  | step (a : Action) (s : GameStore) : Reachable s → Reachable (step a s)

/-- A concrete random oracle: every sample is `0` and the power draw fails. -/
def rng0 : Rng := ⟨fun _ => 0, false⟩

/-- The store right after `startGame('classic')` from a fresh initial state:
`gameState = 'playing'`, a one-segment snake at `(10, 10)`, heading `'right'`. -/
def cexState : GameStore := step (.startGame .classic rng0) (initState 0 [] defaultSettings)

/-- A playing store with a two-segment snake, used to witness the reversal
rejection of `moveSnake`. -/
def twoSegState : GameStore :=
  { initState 0 [] defaultSettings with
    gameState := .playing
    snake := [⟨5, 5⟩, ⟨4, 5⟩]
    direction := .right }

/-- Exactly one of three alternatives holds. -/
def exactlyOneOf (A B C : Prop) : Prop :=
  (A ∧ ¬B ∧ ¬C) ∨ (¬A ∧ B ∧ ¬C) ∨ (¬A ∧ ¬B ∧ C)

/-- Outcome of a tick in which the snake moves without eating: the game stays in
`'playing'`, the new head is prepended, the tail is popped, and length, food and
score are unchanged. -/
def ordinaryOutcome (s t : GameStore) : Prop :=
  t.gameState = .playing ∧
  (∃ h0, s.snake.head? = some h0 ∧
    t.snake = nextHead s.direction h0 :: s.snake.dropLast) ∧
  t.snake.length = s.snake.length ∧
  t.food = s.food ∧ t.score = s.score

/-- Outcome of a tick in which the snake eats: the game stays in `'playing'`, the
new head lands on a food cell, the tail is kept, the eaten food slot is
regenerated, and the score strictly increases. -/
def growthOutcome (rng : Rng) (s t : GameStore) : Prop :=
  t.gameState = .playing ∧
  (∃ h0, s.snake.head? = some h0 ∧
    t.snake = nextHead s.direction h0 :: s.snake ∧
    ∃ i f, s.food.get? i = some f ∧
      f.x = (nextHead s.direction h0).x ∧ f.z = (nextHead s.direction h0).z ∧
      t.food = s.food.set i (generateFood rng t.snake)) ∧
  s.score < t.score

/-- Outcome of a tick that ends the game: `gameState` becomes `'gameOver'` and
every other field except `highScore` is exactly as before. -/
def gameOverOutcome (s t : GameStore) : Prop :=
  t.gameState = .gameOver ∧
  t.gameMode = s.gameMode ∧ t.snake = s.snake ∧ t.food = s.food ∧
  t.powerUps = s.powerUps ∧ t.activePowerUps = s.activePowerUps ∧
  t.direction = s.direction ∧ t.score = s.score ∧ t.level = s.level ∧
  t.lives = s.lives ∧ t.showSettings = s.showSettings ∧
  t.showLeaderboard = s.showLeaderboard ∧ t.leaderboard = s.leaderboard ∧
  t.settings = s.settings ∧ t.snakeSpeed = s.snakeSpeed ∧
  t.cameraMode = s.cameraMode ∧ t.effectsEnabled = s.effectsEnabled

/-- A list whose optional head is `some h0` is `h0` consed on some tail. -/
lemma head_shape {α : Type} {l : List α} {h0 : α} (h : l.head? = some h0) :
    ∃ tl, l = h0 :: tl := by
  cases l with
  | nil => cases h
  | cons a t =>
    rw [List.head?_cons, Option.some.injEq] at h
    exact ⟨t, by rw [h]⟩

/-- When `findFood` reports no hit, no food item lies at `p`
(`findIndex` returned `-1`). -/
lemma findFood_none (p : Position) (l : List Food) (h : findFood p l = none) :
    ∀ f ∈ l, ¬(f.x = p.x ∧ f.z = p.z) := by
  induction l with
  | nil => intro f hf; cases hf
  | cons g rest ih =>
    intro f hf
    unfold findFood at h
    split at h
    · cases h
    · rename_i hg
      rcases List.mem_cons.mp hf with rfl | hmem
      · exact hg
      · have hrest : findFood p rest = none := by
          cases hr : findFood p rest with
          | none => rfl
          | some ig => rw [hr] at h; cases h
        exact ih hrest f hmem

/-- When `findFood` reports a hit `(i, f)`, then `f` is the `i`-th food item and
it lies at `p`. -/
lemma findFood_some (p : Position) (l : List Food) :
    ∀ (i : Nat) (f : Food), findFood p l = some (i, f) →
      l.get? i = some f ∧ f.x = p.x ∧ f.z = p.z := by
  induction l with
  | nil => intro i f h; cases h
  | cons g rest ih =>
    intro i f h
    unfold findFood at h
    split at h
    · rename_i hg
      rw [Option.some.injEq, Prod.mk.injEq] at h
      obtain ⟨hi, hf⟩ := h
      subst hi; subst hf
      exact ⟨rfl, hg⟩
    · cases hr : findFood p rest with
      | none => rw [hr] at h; cases h
      | some ig =>
        obtain ⟨j, g2⟩ := ig
        rw [hr] at h
        rw [show (Option.map (fun ig => (ig.1 + 1, ig.2)) (some (j, g2))) =
              some (j + 1, g2) from rfl] at h
        rw [Option.some.injEq, Prod.mk.injEq] at h
        obtain ⟨hi, hf⟩ := h
        subst hi; subst hf
        obtain ⟨hg, hx, hz⟩ := ih j g2 hr
        exact ⟨hg, hx, hz⟩

/-- Shape of one tick from a playing state with snake `h0 :: tl`: the early
return is skipped and the body runs on head `h0`. -/
lemma updateGame_eq_of_playing (rng : Rng) (s : GameStore) (h0 : Position)
    (tl : List Position) (hp : s.gameState = .playing) (hs : s.snake = h0 :: tl) :
    updateGame rng s =
      (if outOfBounds (nextHead s.direction h0) then
        { s with gameState := .gameOver, highScore := max s.highScore s.score }
      else if overlaps s.snake (nextHead s.direction h0) then
        { s with gameState := .gameOver, highScore := max s.highScore s.score }
      else
        match findFood (nextHead s.direction h0) s.food with
        | some (i, f) =>
          { s with snake := nextHead s.direction h0 :: s.snake,
                   food := s.food.set i
                     (generateFood rng (nextHead s.direction h0 :: s.snake)),
                   score := s.score + (if f.type = .power then 20 else 10),
                   level := (s.score + (if f.type = .power then 20 else 10)) / 100 + 1 }
        | none => { s with snake := (nextHead s.direction h0 :: s.snake).dropLast }) := by
  unfold updateGame
  rw [if_neg (by simp [hp]), hs]

/-- Case analysis for one tick from a playing state with non-empty snake:
either the tentative head is bad and the game ends, or the head eats the first
matching food item, or the snake just moves. -/
lemma updateGame_playing (rng : Rng) (s : GameStore) (h0 : Position)
    (tl : List Position) (hp : s.gameState = .playing) (hs : s.snake = h0 :: tl) :
    ((outOfBounds (nextHead s.direction h0) ∨
        overlaps s.snake (nextHead s.direction h0) = true) ∧
      updateGame rng s =
        { s with gameState := .gameOver, highScore := max s.highScore s.score }) ∨
    (¬outOfBounds (nextHead s.direction h0) ∧
      overlaps s.snake (nextHead s.direction h0) = false ∧
      ∃ i f, findFood (nextHead s.direction h0) s.food = some (i, f) ∧
        updateGame rng s =
          { s with snake := nextHead s.direction h0 :: s.snake,
                   food := s.food.set i
                     (generateFood rng (nextHead s.direction h0 :: s.snake)),
                   score := s.score + (if f.type = .power then 20 else 10),
                   level := (s.score + (if f.type = .power then 20 else 10)) / 100 + 1 }) ∨
    (¬outOfBounds (nextHead s.direction h0) ∧
      overlaps s.snake (nextHead s.direction h0) = false ∧
      findFood (nextHead s.direction h0) s.food = none ∧
      updateGame rng s = { s with snake := (nextHead s.direction h0 :: s.snake).dropLast }) := by
  have hEq := updateGame_eq_of_playing rng s h0 tl hp hs
  by_cases hb : outOfBounds (nextHead s.direction h0)
  · rw [if_pos hb] at hEq
    exact .inl ⟨.inl hb, hEq⟩
  · rw [if_neg hb] at hEq
    by_cases hov : overlaps s.snake (nextHead s.direction h0) = true
    · rw [if_pos hov] at hEq
      exact .inl ⟨.inr hov, hEq⟩
    · have hov' : overlaps s.snake (nextHead s.direction h0) = false :=
        Bool.eq_false_iff.mpr hov
      rw [if_neg hov] at hEq
      cases hf : findFood (nextHead s.direction h0) s.food with
      | some ig =>
        obtain ⟨i, f⟩ := ig
        rw [hf] at hEq
        exact .inr (.inl ⟨hb, hov', i, f, rfl, hEq⟩)
      | none =>
        rw [hf] at hEq
        exact .inr (.inr ⟨hb, hov', rfl, hEq⟩)

/-- A playing store whose snake head sits on the east wall heading `'right'`,
so the next tick hits the wall. -/
def wallState : GameStore :=
  { initState 0 [] defaultSettings with
    gameState := .playing
    snake := [⟨19, 5⟩, ⟨18, 5⟩]
    direction := .right }

/-- A store already in state `'gameOver'`. -/
def overState : GameStore :=
  { initState 0 [] defaultSettings with gameState := .gameOver }

/-- C2: a tick from a playing state that does not end the game moves the head by
exactly one cell along the stored direction (`nextHead` is the `switch` of
`updateGame`: `'up'` is `z - 1`, `'down'` is `z + 1`, `'left'` is `x - 1`,
`'right'` is `x + 1`, the other coordinate unchanged). -/
theorem claim_C2 (rng : Rng) (s : GameStore) (h0 : Position)
    (hp : s.gameState = .playing) (hh : s.snake.head? = some h0)
    (hng : (updateGame rng s).gameState ≠ .gameOver) :
    (updateGame rng s).snake.head? = some (nextHead s.direction h0) := by
  obtain ⟨tl, hs⟩ := head_shape hh
  rcases updateGame_playing rng s h0 tl hp hs with
    ⟨_, hEq⟩ | ⟨_, _, i, f, _, hEq⟩ | ⟨_, _, _, hEq⟩
  · rw [hEq] at hng
    exact absurd rfl hng
  · rw [hEq]
    rfl
  · rw [hEq, hs]
    rfl

/-- Witness for C2: from `wallState` steered `'down'`, the tick moves the head
from `(19, 5)` to `(19, 6)`. -/
theorem claim_C2_witness :
    ({ wallState with direction := .down } : GameStore).gameState = .playing ∧
    ({ wallState with direction := .down } : GameStore).snake.head? = some ⟨19, 5⟩ ∧
    (updateGame rng0 { wallState with direction := .down }).gameState ≠ .gameOver ∧
    (updateGame rng0 { wallState with direction := .down }).snake.head? = some ⟨19, 6⟩ :=
  ⟨rfl, rfl, by decide,
    claim_C2 rng0 { wallState with direction := .down } ⟨19, 5⟩ rfl rfl (by decide)⟩

/-- C3: a tick from a playing state that does not end the game grows the snake
by exactly one segment when the new head lands on a food cell, and keeps the
length unchanged otherwise. -/
theorem claim_C3 (rng : Rng) (s : GameStore) (h0 : Position)
    (hp : s.gameState = .playing) (hh : s.snake.head? = some h0)
    (hng : (updateGame rng s).gameState ≠ .gameOver) :
    ((∃ f ∈ s.food, f.x = (nextHead s.direction h0).x ∧
        f.z = (nextHead s.direction h0).z) →
      (updateGame rng s).snake.length = s.snake.length + 1) ∧
    ((¬∃ f ∈ s.food, f.x = (nextHead s.direction h0).x ∧
        f.z = (nextHead s.direction h0).z) →
      (updateGame rng s).snake.length = s.snake.length) := by
  obtain ⟨tl, hs⟩ := head_shape hh
  rcases updateGame_playing rng s h0 tl hp hs with
    ⟨_, hEq⟩ | ⟨_, _, i, f, hf, hEq⟩ | ⟨_, _, hf, hEq⟩
  · rw [hEq] at hng
    exact absurd rfl hng
  · obtain ⟨hget, hx, hz⟩ := findFood_some _ _ i f hf
    constructor
    · intro _
      rw [hEq]
      rfl
    · intro hno
      exact absurd ⟨f, List.get?_mem hget, hx, hz⟩ hno
  · constructor
    · intro ⟨g, hmem, hgx, hgz⟩
      exact absurd ⟨hgx, hgz⟩ (findFood_none _ _ hf g hmem)
    · intro _
      rw [hEq]
      simp [List.length_dropLast]

/-- Witness for C3 at a concrete playing state: head at `(10, 10)` heading
`'right'`, food at `(15, 15)` — no food hit, so the length stays 1. -/
theorem claim_C3_witness :
    cexState.gameState = .playing ∧ cexState.snake.head? = some ⟨10, 10⟩ ∧
    (updateGame rng0 cexState).gameState ≠ .gameOver ∧
    ((¬∃ f ∈ cexState.food, f.x = (nextHead cexState.direction ⟨10, 10⟩).x ∧
        f.z = (nextHead cexState.direction ⟨10, 10⟩).z) →
      (updateGame rng0 cexState).snake.length = cexState.snake.length) :=
  ⟨rfl, rfl, by decide,
    (claim_C3 rng0 cexState ⟨10, 10⟩ rfl rfl (by decide)).2⟩

/-- C4: whenever the tentative head of a tick is out of bounds or on an
existing snake segment, the tick ends in `'gameOver'`; and from `'gameOver'`
a tick never advances the state again. -/
theorem claim_C4 :
    (∀ (rng : Rng) (s : GameStore) (h0 : Position),
      s.gameState = .playing → s.snake.head? = some h0 →
      (outOfBounds (nextHead s.direction h0) ∨
        overlaps s.snake (nextHead s.direction h0) = true) →
      (updateGame rng s).gameState = .gameOver) ∧
    (∀ (rng : Rng) (s : GameStore), s.gameState = .gameOver →
      updateGame rng s = s) := by
  constructor
  · intro rng s h0 hp hh hbad
    obtain ⟨tl, hs⟩ := head_shape hh
    rcases updateGame_playing rng s h0 tl hp hs with
      ⟨_, hEq⟩ | ⟨hb, hov, _, _, _, _⟩ | ⟨hb, hov, _, _⟩
    · rw [hEq]
    · rcases hbad with h | h
      · exact absurd h hb
      · rw [h] at hov; cases hov
    · rcases hbad with h | h
      · exact absurd h hb
      · rw [h] at hov; cases hov
  · intro rng s h
    simp [updateGame, h]

/-- Witness for C4: from `wallState` the tick hits the east wall and yields
`'gameOver'`; from `overState` the tick is a no-op. -/
theorem claim_C4_witness :
    (wallState.gameState = .playing ∧ wallState.snake.head? = some ⟨19, 5⟩ ∧
      outOfBounds (nextHead wallState.direction ⟨19, 5⟩) ∧
      (updateGame rng0 wallState).gameState = .gameOver) ∧
    (overState.gameState = .gameOver ∧ updateGame rng0 overState = overState) :=
  ⟨⟨rfl, rfl, by decide,
      claim_C4.1 rng0 wallState ⟨19, 5⟩ rfl rfl (.inl (by decide))⟩,
    rfl, claim_C4.2 rng0 overState rfl⟩

/-- C1: a tick from a playing state (with its non-empty snake) has exactly one
of three outcomes — ordinary move, growth on a food cell, or transition to
`'gameOver'` with every field except `gameState` and `highScore` untouched. -/
theorem claim_C1 (rng : Rng) (s : GameStore) (h0 : Position)
    (hp : s.gameState = .playing) (hh : s.snake.head? = some h0) :
    exactlyOneOf (ordinaryOutcome s (updateGame rng s))
      (growthOutcome rng s (updateGame rng s))
      (gameOverOutcome s (updateGame rng s)) := by
  obtain ⟨tl, hs⟩ := head_shape hh
  rcases updateGame_playing rng s h0 tl hp hs with
    ⟨_, hEq⟩ | ⟨_, _, i, f, hf, hEq⟩ | ⟨_, _, hf, hEq⟩
  · refine .inr (.inr ⟨?_, ?_, ?_⟩)
    · intro ⟨hg, _⟩
      rw [hEq] at hg
      cases hg
    · intro ⟨hg, _⟩
      rw [hEq] at hg
      cases hg
    · rw [hEq]
      exact ⟨rfl, rfl, rfl, rfl, rfl, rfl, rfl, rfl, rfl, rfl, rfl, rfl, rfl,
        rfl, rfl, rfl, rfl⟩
  · obtain ⟨hget, hx, hz⟩ := findFood_some _ _ i f hf
    refine .inr (.inl ⟨?_, ⟨?_, ?_, ?_⟩, ?_⟩)
    · intro ⟨_, _, _, _, hsc⟩
      rw [hEq] at hsc
      have hsc2 : s.score + (if f.type = .power then 20 else 10) = s.score := hsc
      split at hsc2 <;> omega
    · rw [hEq]
      exact hp
    · exact ⟨h0, hh, by rw [hEq], i, f, hget, hx, hz, by rw [hEq]⟩
    · have : s.score < s.score + (if f.type = .power then 20 else 10) := by
        split <;> omega
      rw [hEq]
      exact this
    · intro ⟨hg, _⟩
      have hg2 : s.gameState = GameState.gameOver := by rw [hEq] at hg; exact hg
      rw [hp] at hg2
      cases hg2
  · refine .inl ⟨⟨?_, ⟨h0, hh, ?_⟩, ?_, ?_, ?_⟩, ?_, ?_⟩
    · rw [hEq]
      exact hp
    · rw [hEq, hs]
      rfl
    · rw [hEq, hs]
      simp [List.length_dropLast]
    · rw [hEq]
    · rw [hEq]
    · intro ⟨_, _, hlt⟩
      have hlt2 : s.score < s.score := by
        have := hlt
        rw [hEq] at this
        exact this
      exact absurd hlt2 (Nat.lt_irrefl _)
    · intro ⟨hg, _⟩
      have hg2 : s.gameState = GameState.gameOver := by rw [hEq] at hg; exact hg
      rw [hp] at hg2
      cases hg2

/-- Witness for C1 at the concrete playing state right after `startGame`. -/
theorem claim_C1_witness :
    cexState.gameState = .playing ∧ cexState.snake.head? = some ⟨10, 10⟩ ∧
    exactlyOneOf (ordinaryOutcome cexState (updateGame rng0 cexState))
      (growthOutcome rng0 cexState (updateGame rng0 cexState))
      (gameOverOutcome cexState (updateGame rng0 cexState)) :=
  ⟨rfl, rfl, claim_C1 rng0 cexState ⟨10, 10⟩ rfl rfl⟩

/-- C5, as stated, is false on the code: in the reachable state right after
`startGame` the snake has a single segment, and `moveSnake` only rejects a
reversal when `snake.length > 1`; so the reversal input `'left'` against the
stored direction `'right'` does change the stored direction. -/
theorem claim_C5_counterexample :
    Reachable cexState ∧ cexState.gameState = .playing ∧
    opposites .left = cexState.direction ∧
    (moveSnake .left cexState).direction ≠ cexState.direction :=
  ⟨.step _ _ (.init 0 [] defaultSettings), rfl, rfl, by decide⟩

/-- C5 (amended): for every call to `moveSnake(d)` in state `'playing'` where `d`
is the exact opposite of the stored direction and the snake has more than one
segment, the stored direction is unchanged. -/
theorem claim_C5_amended (d : Direction) (s : GameStore)
    (hp : s.gameState = .playing) (hl : 1 < s.snake.length)
    (ho : opposites d = s.direction) :
    (moveSnake d s).direction = s.direction := by
  unfold moveSnake
  rw [if_neg (by simp [hp]), if_pos ⟨hl, ho⟩]

/-- Witness for the amended C5 at a concrete two-segment playing state. -/
theorem claim_C5_amended_witness :
    twoSegState.gameState = .playing ∧ 1 < twoSegState.snake.length ∧
    opposites .left = twoSegState.direction ∧
    (moveSnake .left twoSegState).direction = twoSegState.direction :=
  ⟨rfl, by decide, rfl, claim_C5_amended .left twoSegState rfl (by decide) rfl⟩

/-- C8: no store action ever decreases the `highScore` field. -/
theorem claim_C8 (a : Action) (s : GameStore) :
    s.highScore ≤ (step a s).highScore := by
  cases a <;>
    simp only [step, startGame, pauseGame, resetGame, moveSnake, updateGame,
      updateSettings, toggleSettings, toggleLeaderboard, addToLeaderboard,
      setSnakeSpeed, setCameraMode, toggleEffects] <;>
    (repeat' split) <;>
    first
      | exact Nat.le_refl _
      | exact Nat.le_max_left _ _

/-- C9: after every `addToLeaderboard` call, the leaderboard holds at most 10
entries and is sorted by score in descending order, whatever the prior contents
and the added entry. -/
theorem claim_C9 (entry : EntryInput) (newId : String) (s : GameStore) :
    ((addToLeaderboard entry newId s).leaderboard).length ≤ 10 ∧
    List.Sorted scoreGE ((addToLeaderboard entry newId s).leaderboard) := by
  constructor
  · simp [addToLeaderboard]
  · exact List.Pairwise.sublist (List.take_sublist 10 _)
      (List.sorted_insertionSort scoreGE _)

/-- C10: when the game is not in state `'playing'`, both `moveSnake` (any
direction) and `updateGame` leave the store completely unchanged. -/
theorem claim_C10 (d : Direction) (rng : Rng) (s : GameStore)
    (h : s.gameState ≠ .playing) :
    moveSnake d s = s ∧ updateGame rng s = s :=
  ⟨by simp [moveSnake, h], by simp [updateGame, h]⟩

/-- Witness for C10 at the concrete initial (menu) state. -/
theorem claim_C10_witness :
    (initState 0 [] defaultSettings).gameState ≠ .playing ∧
    moveSnake .up (initState 0 [] defaultSettings) = initState 0 [] defaultSettings ∧
    updateGame rng0 (initState 0 [] defaultSettings) = initState 0 [] defaultSettings :=
  ⟨by decide, (claim_C10 .up rng0 _ (by decide)).1, (claim_C10 .up rng0 _ (by decide)).2⟩

/-- If some attempt index in `[i, 100)` samples a snake-free cell, the retry
loop of `generateFood` returns a snake-free cell (it returns the first free
sample). -/
lemma genAttempts_free (rng : Rng) (snake : List Position) :
    ∀ (fuel i : Nat), 100 ≤ i + fuel →
      (∃ j, i ≤ j ∧ j < 100 ∧ overlaps snake (genPos rng j) = false) →
      overlaps snake (genAttempts rng snake fuel i) = false := by
  intro fuel
  induction fuel with
  | zero =>
    intro i hle h
    obtain ⟨j, hij, hj100, _⟩ := h
    omega
  | succ fuel ih =>
    intro i hle h
    obtain ⟨j, hij, hj100, hfree⟩ := h
    show overlaps snake
      (if overlaps snake (genPos rng i) && decide (i + 1 < 100) then
        genAttempts rng snake fuel (i + 1)
      else genPos rng i) = false
    by_cases hov : overlaps snake (genPos rng i) = true
    · by_cases hlt : i + 1 < 100
      · rw [if_pos (by simp [hov, hlt])]
        apply ih (i + 1) (by omega)
        refine ⟨j, ?_, hj100, hfree⟩
        rcases Nat.eq_or_lt_of_le hij with rfl | hgt
        · rw [hov] at hfree; cases hfree
        · omega
      · exfalso
        have hji : j = i := by omega
        rw [hji, hov] at hfree
        cases hfree
    · rw [if_neg (by simp [hov])]
      exact Bool.eq_false_iff.mpr hov

/-- C7, as stated, is false on the code: the retry loop gives up after 100
attempts, so a random source that keeps sampling the occupied cell `(0, 0)`
makes `generateFood` return a cell occupied by the snake `[(0, 0)]`. -/
theorem claim_C7_counterexample :
    overlaps [(⟨0, 0⟩ : Position)]
      ⟨(generateFood rng0 [⟨0, 0⟩]).x, (generateFood rng0 [⟨0, 0⟩]).z⟩ = true := by
  decide

/-- C7 (amended): every food item produced by `generateFood` lies on a cell not
occupied by the snake passed to it, provided at least one of the first 100
sampled candidate cells is free of the snake. -/
theorem claim_C7_amended (rng : Rng) (snake : List Position)
    (h : ∃ j, j < 100 ∧ overlaps snake (genPos rng j) = false) :
    overlaps snake
      ⟨(generateFood rng snake).x, (generateFood rng snake).z⟩ = false := by
  obtain ⟨j, hj, hfree⟩ := h
  exact genAttempts_free rng snake 100 0 (by omega) ⟨j, Nat.zero_le j, hj, hfree⟩

/-- Witness for the amended C7: against the snake `[(1, 1)]`, the all-zero
random source samples the free cell `(0, 0)` at once, and the produced food is
on a free cell. -/
theorem claim_C7_amended_witness :
    (∃ j, j < 100 ∧ overlaps [(⟨1, 1⟩ : Position)] (genPos rng0 j) = false) ∧
    overlaps [(⟨1, 1⟩ : Position)]
      ⟨(generateFood rng0 [⟨1, 1⟩]).x, (generateFood rng0 [⟨1, 1⟩]).z⟩ = false :=
  ⟨⟨0, by decide, by decide⟩,
    claim_C7_amended rng0 [⟨1, 1⟩] ⟨0, by decide, by decide⟩⟩

/-- The spec's bound on a grid cell: integer coordinates in `[0, GRID_SIZE)`. -/
def inBoundsPos (x z : Int) : Prop :=
  0 ≤ x ∧ x < (GRID_SIZE : Int) ∧ 0 ≤ z ∧ z < (GRID_SIZE : Int)

instance (x z : Int) : Decidable (inBoundsPos x z) := by
  unfold inBoundsPos; infer_instance

/-- Every snake segment, food item and power-up of the store lies on the grid. -/
def storeInBounds (s : GameStore) : Prop :=
  (∀ p ∈ s.snake, inBoundsPos p.x p.z) ∧
  (∀ f ∈ s.food, inBoundsPos f.x f.z) ∧
  (∀ u ∈ s.powerUps, inBoundsPos u.x u.z)

/-- Every sampled candidate cell is on the grid. -/
lemma genPos_inBounds (rng : Rng) (i : Nat) :
    inBoundsPos (genPos rng i).x (genPos rng i).z := by
  unfold genPos inBoundsPos
  simp only []
  refine ⟨Int.ofNat_nonneg _, ?_, Int.ofNat_nonneg _, ?_⟩ <;>
    exact_mod_cast Nat.mod_lt _ (show 0 < GRID_SIZE by decide)

/-- The retry loop returns one of the sampled candidate cells. -/
lemma genAttempts_isSample (rng : Rng) (snake : List Position) :
    ∀ (fuel i : Nat), ∃ j, genAttempts rng snake fuel i = genPos rng j := by
  intro fuel
  induction fuel with
  | zero => intro i; exact ⟨i, rfl⟩
  | succ fuel ih =>
    intro i
    show ∃ j,
      (if overlaps snake (genPos rng i) && decide (i + 1 < 100) then
        genAttempts rng snake fuel (i + 1)
      else genPos rng i) = genPos rng j
    split
    · exact ih (i + 1)
    · exact ⟨i, rfl⟩

/-- Every food item produced by `generateFood` is on the grid. -/
lemma generateFood_inBounds (rng : Rng) (snake : List Position) :
    inBoundsPos (generateFood rng snake).x (generateFood rng snake).z := by
  obtain ⟨j, hj⟩ := genAttempts_isSample rng snake 100 0
  show inBoundsPos (genAttempts rng snake 100 0).x (genAttempts rng snake 100 0).z
  rw [hj]
  exact genPos_inBounds rng j

/-- C6: in every state reachable by store actions from the initial state, all
snake segments, food items and power-ups have coordinates in `[0, GRID_SIZE)`. -/
theorem claim_C6 (s : GameStore) (h : Reachable s) : storeInBounds s := by
  induction h with
  | init hs lb st =>
    refine ⟨?_, ?_, ?_⟩
    · intro p hp2
      have hp3 : p = (⟨10, 10⟩ : Position) := by simpa [initState] using hp2
      rw [hp3]; decide
    · intro f hf
      have hf2 : f = (⟨15, 15, .normal⟩ : Food) := by simpa [initState] using hf
      rw [hf2]; decide
    · intro u hu
      simp [initState] at hu
  | step a s hr ih =>
    cases a with
    | startGame mode rng =>
      show storeInBounds (startGame mode rng s)
      refine ⟨?_, ?_, ?_⟩
      · intro p hp2
        have hp3 : p = (⟨10, 10⟩ : Position) := by simpa [startGame] using hp2
        rw [hp3]; decide
      · intro f hf
        have hf2 : f = generateFood rng [⟨10, 10⟩] := by simpa [startGame] using hf
        rw [hf2]; exact generateFood_inBounds rng _
      · intro u hu
        simp [startGame] at hu
    | pauseGame =>
      show storeInBounds (pauseGame s)
      unfold pauseGame
      split
      · exact ⟨ih.1, ih.2.1, ih.2.2⟩
      · split
        · exact ⟨ih.1, ih.2.1, ih.2.2⟩
        · exact ih
    | resetGame rng =>
      show storeInBounds (resetGame rng s)
      refine ⟨?_, ?_, ?_⟩
      · intro p hp2
        have hp3 : p = (⟨10, 10⟩ : Position) := by simpa [resetGame] using hp2
        rw [hp3]; decide
      · intro f hf
        have hf2 : f = generateFood rng [⟨10, 10⟩] := by simpa [resetGame] using hf
        rw [hf2]; exact generateFood_inBounds rng _
      · intro u hu
        simp [resetGame] at hu
    | moveSnake d =>
      show storeInBounds (moveSnake d s)
      unfold moveSnake
      split
      · exact ih
      · split
        · exact ih
        · exact ⟨ih.1, ih.2.1, ih.2.2⟩
    | updateGame rng =>
      show storeInBounds (updateGame rng s)
      by_cases hp : s.gameState = .playing
      · cases hsn : s.snake with
        | nil =>
          have heq : updateGame rng s = s := by
            unfold updateGame
            rw [if_neg (by simp [hp]), hsn]
          rw [heq]; exact ih
        | cons h0 tl =>
          rcases updateGame_playing rng s h0 tl hp hsn with
            ⟨_, hEq⟩ | ⟨hb, _, i, f, _, hEq⟩ | ⟨hb, _, _, hEq⟩
          · rw [hEq]
            exact ⟨ih.1, ih.2.1, ih.2.2⟩
          · have hnh : inBoundsPos (nextHead s.direction h0).x
                (nextHead s.direction h0).z := by
              unfold outOfBounds at hb
              push_neg at hb
              exact hb
            rw [hEq]
            refine ⟨?_, ?_, ih.2.2⟩
            · intro p hp2
              rcases List.mem_cons.mp hp2 with rfl | hmem
              · exact hnh
              · exact ih.1 p hmem
            · intro g hg
              rcases List.mem_or_eq_of_mem_set hg with hmem | rfl
              · exact ih.2.1 g hmem
              · exact generateFood_inBounds rng _
          · have hnh : inBoundsPos (nextHead s.direction h0).x
                (nextHead s.direction h0).z := by
              unfold outOfBounds at hb
              push_neg at hb
              exact hb
            rw [hEq]
            refine ⟨?_, ih.2.1, ih.2.2⟩
            intro p hp2
            have hp3 : p ∈ nextHead s.direction h0 :: s.snake :=
              (List.dropLast_sublist _).subset hp2
            rcases List.mem_cons.mp hp3 with rfl | hmem
            · exact hnh
            · exact ih.1 p hmem
      · have heq : updateGame rng s = s := by
          unfold updateGame
          rw [if_pos hp]
        rw [heq]; exact ih
    | updateSettings ns =>
      exact ⟨ih.1, ih.2.1, ih.2.2⟩
    | toggleSettings =>
      exact ⟨ih.1, ih.2.1, ih.2.2⟩
    | toggleLeaderboard =>
      exact ⟨ih.1, ih.2.1, ih.2.2⟩
    | addToLeaderboard e newId =>
      exact ⟨ih.1, ih.2.1, ih.2.2⟩
    | setSnakeSpeed v =>
      exact ⟨ih.1, ih.2.1, ih.2.2⟩
    | setCameraMode m =>
      exact ⟨ih.1, ih.2.1, ih.2.2⟩
    | toggleEffects =>
      exact ⟨ih.1, ih.2.1, ih.2.2⟩

/-- Witness for C6 at the concrete (reachable) initial state. -/
theorem claim_C6_witness : storeInBounds (initState 0 [] defaultSettings) :=
  claim_C6 _ (.init 0 [] defaultSettings)

end SnakeNeon
